import Mathlib

/-!
Verification development for the vuln-agent repository.

The definitions below are shallow embeddings of the repository's Python
code: confidence scoring (`scratch/triage-agent.py` and
`src/agents/triage_agent.py`), severity adjustment and report generation
(`src/core/services/analysis_workflow.py`), the Flask AST analyzer
(`src/workflow/discovery/ast_analysis/analyzers/flask_analyzer.py` together
with its `base.py` and `flask_patterns.py`), and the Express pattern-text
analyzer (`src/core/workflow/discovery/ast_analysis/analyzers/express_analyzer.py`).
Python floats are modelled as exact rationals; code paths that raise
exceptions are modelled with `Option`.
-/

namespace VulnAgent

/-! ## Scoring: `scratch/triage-agent.py`, class `CodeQLTriageAgent` -/

/-- The boolean AST-pattern signals computed by `_analyze_ast_patterns`
(`validation_patterns` and `unsafe_patterns` dictionaries). -/
structure AstPatterns where
  input_validation : Bool
  sanitizer_calls : Bool
  framework_protection : Bool
  direct_use : Bool
  missing_validation : Bool
  weak_sanitization : Bool
deriving DecidableEq

/-- The parts of an analyzed finding dictionary read by
`CodeQLTriageAgent._calculate_confidence_score`: the AST-pattern booleans,
the `is_safe` verdict of each similar pattern, and
`sanitizer_analysis["sanitizer_effectiveness"]`. -/
structure ScratchFinding where
  ast_patterns : AstPatterns
  similar_is_safe : List Bool
  sanitizer_effectiveness : ℚ
deriving DecidableEq

namespace CodeQLTriageAgent

/-- From `scratch/triage-agent.py` lines 139-169,
`CodeQLTriageAgent._calculate_confidence_score`.  The division
`safe_patterns / len(finding["similar_patterns"])` raises
`ZeroDivisionError` when the similar-pattern list is empty; that failure
is modelled as `none`. -/
def calculate_confidence_score (finding : ScratchFinding) : Option ℚ :=
  let score : ℚ := 0
  let score := if finding.ast_patterns.input_validation then score + 0.3 else score
  let score := if finding.ast_patterns.sanitizer_calls then score + 0.2 else score
  let score := if finding.ast_patterns.framework_protection then score + 0.2 else score
  let score := if finding.ast_patterns.direct_use then score - 0.3 else score
  let score := if finding.ast_patterns.missing_validation then score - 0.2 else score
  let safe_patterns : ℚ := (finding.similar_is_safe.filter (fun b => b)).length
  if finding.similar_is_safe.length = 0 then
    none
  else
    let score := score + safe_patterns / (finding.similar_is_safe.length : ℚ) * 0.2
    let score := score + finding.sanitizer_effectiveness * 0.1
    some (max 0 (min 1 score))

/-- From `scratch/triage-agent.py` lines 244-250 (`__main__`): the printed
interpretation of a confidence score. -/
def interpretation (confidence : ℚ) : String :=
  if confidence < 0.3 then "Likely true positive"
  else if confidence > 0.7 then "Likely false positive"
  else "Needs manual review"

end CodeQLTriageAgent

/-- Written from the spec's words (StaticPatternPolicy formula), for
comparison with `CodeQLTriageAgent.calculate_confidence_score`:
`clamp(0.3·hasInputValidation + 0.2·hasSanitizerCall +
0.2·hasFrameworkProtection − 0.3·hasDirectDangerousUse −
0.2·hasMissingValidation + 0.2·(safeSimilar/totalSimilar) +
0.1·sanitizerEffectiveness, 0, 1)`. -/
def staticPatternPolicySpec (finding : ScratchFinding) : ℚ :=
  let b : Bool → ℚ := fun x => if x then 1 else 0
  let total : ℚ := finding.similar_is_safe.length
  let safe : ℚ := (finding.similar_is_safe.filter (fun x => x)).length
  max 0 (min 1
    (0.3 * b finding.ast_patterns.input_validation
      + 0.2 * b finding.ast_patterns.sanitizer_calls
      + 0.2 * b finding.ast_patterns.framework_protection
      - 0.3 * b finding.ast_patterns.direct_use
      - 0.2 * b finding.ast_patterns.missing_validation
      + 0.2 * (safe / total)
      + 0.1 * finding.sanitizer_effectiveness))

/-! ## Scoring: `src/agents/triage_agent.py`, class `TriageAgent` -/

/-- The parts of the analysis dictionary read by
`TriageAgent._calculate_confidence_score` (lines 56-79): the
`data_flow` booleans, `ast_patterns["has_validation"]`,
`sanitizer_analysis["effectiveness"]`, and the `is_safe` flag of each
similar pattern.  The scorer also receives the sanitizer-call and
framework-protection pattern booleans in its input dictionary but never
reads them; they are carried here to state claims about them. -/
structure TriageAnalysis where
  reaches_sink : Bool
  has_sanitization : Bool
  has_validation : Bool
  has_sanitizer_call : Bool
  has_framework_protection : Bool
  effectiveness : ℚ
  similar_is_safe : List Bool
deriving DecidableEq

namespace TriageAgent

/-- From `src/agents/triage_agent.py` lines 56-79,
`TriageAgent._calculate_confidence_score`. -/
def calculate_confidence_score (analysis : TriageAnalysis) : ℚ :=
  let score : ℚ := 0
  let score := if analysis.reaches_sink then score + 0.4 else score
  let score := if analysis.has_sanitization then score - 0.3 else score
  let score := if analysis.has_validation then score + 0.2 else score
  let score := if analysis.effectiveness > 0.7 then score - 0.2 else score
  let safe_patterns : ℚ := (analysis.similar_is_safe.filter (fun b => b)).length
  let score :=
    if analysis.similar_is_safe ≠ [] then
      score + safe_patterns / (analysis.similar_is_safe.length : ℚ) * 0.2
    else score
  max 0 (min 1 score)

end TriageAgent

/-- Written from the spec's words (DataFlowAwarePolicy formula), for
comparison with `TriageAgent.calculate_confidence_score`: 0.2 for each of
the three positive pattern signals, +0.4 if the tainted value reaches a
sink, −0.3 if sanitization intercepts it, plus the similar-pattern term
at weight 0.2, clamped to `[0,1]`. -/
def dataFlowAwarePolicySpec (analysis : TriageAnalysis) : ℚ :=
  let b : Bool → ℚ := fun x => if x then 1 else 0
  let total : ℚ := analysis.similar_is_safe.length
  let safe : ℚ := (analysis.similar_is_safe.filter (fun x => x)).length
  max 0 (min 1
    (0.2 * b analysis.has_validation
      + 0.2 * b analysis.has_sanitizer_call
      + 0.2 * b analysis.has_framework_protection
      + 0.4 * b analysis.reaches_sink
      - 0.3 * b analysis.has_sanitization
      + 0.2 * (if total = 0 then 0 else safe / total)))

/-! ## Severity adjustment and report generation:
`src/core/services/analysis_workflow.py`, class `SecurityAnalysisWorkflow` -/

namespace SecurityAnalysisWorkflow

/-- The `severity_levels` list of `_adjust_severity`. -/
def severity_levels : List String := ["low", "medium", "high", "critical"]

/-- Python's `str.lower()`, mapped over the characters of the string. -/
def pyLower (s : String) : String :=
  String.mk (s.data.map Char.toLower)

/-- From `src/core/services/analysis_workflow.py` lines 90-102,
`SecurityAnalysisWorkflow._adjust_severity`.  Python's `list.index`
raises `ValueError` when the lowered base severity is not one of the four
levels; that failure is modelled as `none`. -/
def adjust_severity (base_severity : String) (confidence : ℚ) : Option String :=
  match severity_levels.findIdx? (fun s => s = pyLower base_severity) with
  | none => none
  | some base_index =>
    if confidence < 0.3 ∧ 0 < base_index then
      severity_levels.get? (base_index - 1)
    else if confidence > 0.8 ∧ base_index < severity_levels.length - 1 then
      severity_levels.get? (base_index + 1)
    else
      some base_severity

/-- From `src/core/services/analysis_workflow.py` lines 43-46 of
`_generate_final_report`: `finding.confidence_score =
scored_findings.get(finding_id, 0.0)`.  The scored-findings mapping is
keyed by the resolved finding identifier, which may be `None`. -/
def assigned_confidence (scored_findings : List (Option String × ℚ))
    (finding_id : Option String) : ℚ :=
  match scored_findings.lookup finding_id with
  | some c => c
  | none => 0

end SecurityAnalysisWorkflow

/-! ## Python AST embedding for the Flask analyzer

`src/workflow/discovery/ast_analysis/analyzers/flask_analyzer.py` walks a
Python `ast` tree with `ast.NodeVisitor`.  The node shapes the analyzer
inspects (`Name`, `Attribute`, `Call`, `Subscript`, constants, `Assign`,
`Return`, expression statements, `FunctionDef`) are embedded as mutual
inductives; `generic_visit` visits child nodes in field order. -/

mutual
inductive Expr : Type where
  | name (id : String) : Expr
  | strLit (s : String) : Expr
  | constNone : Expr
  | attribute (value : Expr) (attr : String) : Expr
  | subscript (value : Expr) (index : Expr) : Expr
  | call (func : Expr) (args : ExprList) : Expr

inductive ExprList : Type where
  | nil : ExprList
  | cons (head : Expr) (tail : ExprList) : ExprList
end

mutual
inductive Stmt : Type where
  | functionDef (name : String) (body : StmtList) (decorator_list : ExprList) : Stmt
  | assign (targets : ExprList) (value : Expr) : Stmt
  | ret (value : Option Expr) : Stmt
  | exprStmt (value : Expr) : Stmt

inductive StmtList : Type where
  | nil : StmtList
  | cons (head : Stmt) (tail : StmtList) : StmtList
end

/-- The expressions of an `ExprList`, as a Lean list. -/
def ExprList.toList : ExprList → List Expr
  | .nil => []
  | .cons e t => e :: ExprList.toList t

/-- From `src/workflow/discovery/ast_analysis/models.py`: the `DataFlow`
record.  In Python, `sink` and the `path` entries receive
`self.current_function`, which can be `None`; string interpolation of
`None` yields `"None"`. -/
structure DataFlow where
  source : Option String
  sink : Option String
  path : List (Option String)
  variables_involved : List String
deriving DecidableEq

/-- Value of a `variable_sources` entry: the `type` and `location` keys. -/
structure SourceInfo where
  type : String
  location : Option String
deriving DecidableEq

/-- Value of a `current_scope_variables` entry: the `source` and `value`
keys written by `visit_Assign`. -/
structure VarInfo where
  source : Option String
  value : Expr

/-- From `analyzers/base.py` lines 5-11: the accumulator fields of
`BaseAnalyzer.__init__`.  Python dictionaries are modelled as
insertion-ordered association lists, Python's `set` of entry points as a
list with membership-guarded insertion. -/
structure AnalyzerState where
  entry_points : List String
  data_flows : List DataFlow
  current_function : Option String
  variable_sources : List (Option String × SourceInfo)
  current_scope_variables : List (String × VarInfo)

/-- Python f-string interpolation of an optional string (`None` prints as
`"None"`). -/
def pyStr : Option String → String
  | none => "None"
  | some s => s

/-- Python dict assignment `d[k] = v`: update in place when the key
exists, else append (insertion order preserved). -/
def dictInsert {K V : Type} [DecidableEq K] (d : List (K × V)) (k : K) (v : V) :
    List (K × V) :=
  if d.any (fun p => p.1 = k) then
    d.map (fun p => if p.1 = k then (k, v) else p)
  else d ++ [(k, v)]

/-- Python `set.add`, on the list model of a set. -/
def setAdd (s : List String) (x : String) : List String :=
  if x ∈ s then s else s ++ [x]

/-- From `patterns/flask_patterns.py`: `SOURCE_PATTERNS`. -/
def SOURCE_PATTERNS : List String :=
  ["request.form", "request.args", "request.get_json",
   "request.data", "request.values", "request.files",
   "request.headers", "request.cookies", "request.environ"]

/-- From `patterns/flask_patterns.py`: `SINK_PATTERNS`. -/
def SINK_PATTERNS : List String :=
  ["make_response", "jsonify", "render_template",
   "send_file", "send_from_directory", "Response",
   "redirect", "abort", "stream_with_context"]

/-- From `patterns/flask_patterns.py`: `PROCESSOR_PATTERNS`. -/
def PROCESSOR_PATTERNS : List String :=
  ["before_request", "after_request",
   "before_first_request", "teardown_request",
   "preprocess_request", "process_response"]

/-- From `flask_analyzer.py` line 77: the external-input callables checked in
`visit_Assign`. -/
def EXTERNAL_INPUT_FUNCS : List String :=
  ["input", "request.get_json", "read", "recv"]

/-- From `flask_analyzer.py` line 34: the decorator attributes accepted as
route verbs. -/
def ROUTE_VERBS : List String := ["route", "get", "post", "put", "delete"]

namespace FlaskAnalyzer

/-- From `flask_analyzer.py` lines 33-34: a decorator counts as a route
decorator when it is a `Call` whose `func` has an `attr` field (an
`Attribute` node) naming a route verb. -/
def isRouteDecorator : Expr → Bool
  | .call (.attribute _ attr) _ => ROUTE_VERBS.contains attr
  | _ => false

/-- The synthetic route edge of `_handle_route_decorator` (lines 53-60),
built from the analyzer's `current_function` at that point. -/
def route_edge (cf : Option String) : DataFlow :=
  { source := some ("HTTP::" ++ pyStr cf)
    sink := cf
    path := [some "wsgi_app", some "dispatch_request", cf]
    variables_involved := ["request"] }

/-- From `flask_analyzer.py` lines 49-60, `_handle_route_decorator`. -/
def handle_route_decorator (st : AnalyzerState) : AnalyzerState :=
  { st with
    entry_points := setAdd st.entry_points (pyStr st.current_function ++ " (HTTP endpoint)")
    data_flows := st.data_flows ++ [route_edge st.current_function] }

/-- From `flask_analyzer.py` lines 31-36: the loop over
`node.decorator_list`. -/
def fold_route_decorators : AnalyzerState → ExprList → AnalyzerState
  | st, .nil => st
  | st, .cons d t =>
    fold_route_decorators (if isRouteDecorator d then handle_route_decorator st else st) t

/-- The processor/middleware edge of `flask_analyzer.py` lines 40-47. -/
def processor_edge (fn : String) : DataFlow :=
  { source := some ("request::" ++ fn)
    sink := some ("response::" ++ fn)
    path := [some "wsgi_app", some fn]
    variables_involved := ["request", "response"] }

/-- From `flask_analyzer.py` lines 38-47: after the decorator loop, emit a
processor edge when `current_function` names a processor pattern (`None in
PROCESSOR_PATTERNS` is false). -/
def processor_step (st : AnalyzerState) : AnalyzerState :=
  match st.current_function with
  | some fn =>
    if PROCESSOR_PATTERNS.contains fn then
      { st with data_flows := st.data_flows ++ [processor_edge fn] }
    else st
  | none => st

/-- From `flask_analyzer.py` lines 85-95, the state update of
`visit_Attribute` (before its `generic_visit`). -/
def attribute_update (st : AnalyzerState) (value : Expr) (attr : String) :
    AnalyzerState :=
  match value with
  | .name vid =>
    if vid = "request" ∧ SOURCE_PATTERNS.contains ("request." ++ attr) then
      { st with
        variable_sources :=
          dictInsert st.variable_sources st.current_function
            ⟨"flask_input", st.current_function⟩ }
    else st
  | _ => st

/-- From `flask_analyzer.py` lines 97-135, the state update of `visit_Call`
(before its `generic_visit`).  Both the source and the sink branch are
guarded by the truthiness of `self.current_function`. -/
def call_update (st : AnalyzerState) (func : Expr) : AnalyzerState :=
  match func with
  | .attribute (.name vid) attr =>
    let attr_path := vid ++ "." ++ attr
    if SOURCE_PATTERNS.contains attr_path then
      match st.current_function with
      | some fn =>
        let source_name := fn ++ "::" ++ attr_path
        let st :=
          { st with
            variable_sources :=
              dictInsert st.variable_sources (some fn)
                ⟨"request_data", some source_name⟩ }
        { st with
          data_flows := st.data_flows ++
            [{ source := some source_name
               sink := some fn
               path := [some attr_path, some fn]
               variables_involved := [vid] }] }
      | none => st
    else if SINK_PATTERNS.contains attr then
      match st.current_function with
      | some fn =>
        let source : Option String :=
          match st.variable_sources.lookup (some fn) with
          | some info => info.location
          | none => some fn
        { st with
          data_flows := st.data_flows ++
            [{ source := source
               sink := some (fn ++ "::" ++ attr)
               path := [some fn]
               variables_involved := st.current_scope_variables.map Prod.fst }] }
      | none => st
    else st
  | _ => st

/-- From `flask_analyzer.py` lines 65-81: the per-target update of
`visit_Assign`. -/
def assign_target_update (value : Expr) (st : AnalyzerState) (target : Expr) :
    AnalyzerState :=
  match target with
  | .name tid =>
    let st :=
      { st with
        current_scope_variables :=
          dictInsert st.current_scope_variables tid ⟨st.current_function, value⟩ }
    match value with
    | .call (.name fid) _ =>
      if EXTERNAL_INPUT_FUNCS.contains fid then
        { st with
          variable_sources :=
            dictInsert st.variable_sources (some tid)
              ⟨"external_input", st.current_function⟩ }
      else st
    | _ => st
  | _ => st

/-- Fold a state-updating step over an `ExprList` (Python `for` loop). -/
def foldExprs (f : AnalyzerState → Expr → AnalyzerState) :
    AnalyzerState → ExprList → AnalyzerState
  | st, .nil => st
  | st, .cons e t => foldExprs f (f st e) t

mutual

/-- Dispatch of `ast.NodeVisitor.visit` on expression nodes, for
`FlaskAnalyzer`: `visit_Attribute` and `visit_Call` are overridden, every
other expression gets `generic_visit` (children in field order). -/
def visitExpr (st : AnalyzerState) : Expr → AnalyzerState
  | .name _ => st
  | .strLit _ => st
  | .constNone => st
  | .attribute value attr =>
    let st := attribute_update st value attr
    visitExpr st value
  | .subscript value index =>
    let st := visitExpr st value
    visitExpr st index
  | .call func args =>
    let st := call_update st func
    let st := visitExpr st func
    visitExprs st args

/-- Visit the expressions of an `ExprList` in order. -/
def visitExprs (st : AnalyzerState) : ExprList → AnalyzerState
  | .nil => st
  | .cons e t => visitExprs (visitExpr st e) t
end

mutual

/-- Dispatch of `ast.NodeVisitor.visit` on statement nodes for
`FlaskAnalyzer`.  For `FunctionDef`, `BaseAnalyzer.visit_FunctionDef`
(base.py lines 28-33) saves `current_function`, sets it to the function's
name, generic-visits the children (body, then decorator list) and
restores the saved value; only then does `FlaskAnalyzer.visit_FunctionDef`
run its decorator loop and processor check. -/
def visitStmt (st : AnalyzerState) : Stmt → AnalyzerState
  | .functionDef name body decorators =>
    let prev := st.current_function
    let st := { st with current_function := some name }
    let st := visitStmts st body
    let st := visitExprs st decorators
    let st := { st with current_function := prev }
    let st := fold_route_decorators st decorators
    processor_step st
  | .assign targets value =>
    let st := foldExprs (assign_target_update value) st targets
    let st := visitExprs st targets
    visitExpr st value
  | .ret value =>
    match value with
    | none => st
    | some e => visitExpr st e
  | .exprStmt e => visitExpr st e

/-- Visit the statements of a `StmtList` in order. -/
def visitStmts (st : AnalyzerState) : StmtList → AnalyzerState
  | .nil => st
  | .cons s t => visitStmts (visitStmt st s) t
end

/-- A fresh analyzer (`BaseAnalyzer.__init__`). -/
def initial_state : AnalyzerState :=
  { entry_points := []
    data_flows := []
    current_function := none
    variable_sources := []
    current_scope_variables := [] }

/-- Behaviour of `FlaskAnalyzer.analyze` (lines 11-23) on an already-parsed module:
`self.visit(tree)` generic-visits the module body. -/
def analyze (st : AnalyzerState) (module_body : StmtList) : AnalyzerState :=
  visitStmts st module_body

/-- From `discovery.py` lines 122-146 (`discover_project`): one analyzer
instance per framework is reused, calling `analyzer.analyze` on every
relevant file in turn. -/
def analyze_files (st : AnalyzerState) (files : List StmtList) : AnalyzerState :=
  files.foldl analyze st

end FlaskAnalyzer

/-! ## Express pattern-text analyzer:
`src/core/workflow/discovery/ast_analysis/analyzers/express_analyzer.py` -/

/-- One match of the Express route regexes: the HTTP verb group and the
path-string group. -/
structure RouteMatch where
  method : String
  path : String

/-- The instance state of `ExpressAnalyzer` read and written by
`_analyze_express_patterns`: the inherited accumulators plus
`current_route` (which persists across `analyze` calls). -/
structure ExpressState where
  entry_points : List String
  data_flows : List DataFlow
  current_route : Option String

/-- Python's `str.upper()`, mapped over the characters of the string. -/
def pyUpper (s : String) : String :=
  String.mk (s.data.map Char.toUpper)

namespace ExpressAnalyzer

/-- A fresh `ExpressAnalyzer`. -/
def initial_state : ExpressState :=
  { entry_points := [], data_flows := [], current_route := none }

/-- From `express_analyzer.py` lines 50-144, `_analyze_express_patterns`.
The regular-expression scans of the file content are abstracted: the
function receives the already-extracted match groups (route verb/path
pairs, stripped middleware argument texts, source attribute names, sink
attribute names) and performs the edge construction of lines 78-144 on
them in the source's loop order. -/
def analyze_express_patterns (routes : List RouteMatch) (middleware : List String)
    (source_matches : List String) (sink_matches : List String)
    (st : ExpressState) : ExpressState :=
  let st := routes.foldl (fun st m =>
    let route_name := pyUpper m.method ++ " " ++ m.path
    { entry_points := setAdd st.entry_points (route_name ++ " (HTTP endpoint)")
      data_flows := st.data_flows ++
        [{ source := some ("HTTP::" ++ route_name)
           sink := some route_name
           path := [some "express", some "router", some route_name]
           variables_involved := ["req", "res"] }]
      current_route := some route_name }) st
  let st := middleware.foldl (fun st mw =>
    if mw ≠ "" then
      { st with data_flows := st.data_flows ++
          [{ source := some ("request::" ++ mw)
             sink := some ("response::" ++ mw)
             path := [some "express", some "middleware", some mw]
             variables_involved := ["req", "res", "next"] }] }
    else st) st
  match st.current_route with
  | some route =>
    let st := source_matches.foldl (fun st t =>
      { st with data_flows := st.data_flows ++
          [{ source := some ("request." ++ t)
             sink := some route
             path := [some "express", some "request", some t]
             variables_involved := ["req." ++ t] }] }) st
    sink_matches.foldl (fun st t =>
      { st with data_flows := st.data_flows ++
          [{ source := some route
             sink := some ("response." ++ t)
             path := [some "express", some "response", some t]
             variables_involved := ["res." ++ t] }] }) st
  | none => st

end ExpressAnalyzer

/-! ## The path/sink invariant

The spec's invariant on a produced `DataFlowEdge` is that its `path` is
non-empty and its terminal element derives from the edge's `sink`.
"Derives from" is read generously: the last hop label occurs verbatim
inside the sink label (equality, or a component of a qualified label such
as `fn::sinkName` or `response::fn`). -/

/-- Whether the run `needle` is an initial run of
`haystack`. -/
def startsRun : List Char → List Char → Bool
  | [], _ => true
  | _ :: _, [] => false
  | a :: as, b :: bs => a = b && startsRun as bs

/-- Whether the run `needle` occurs as a contiguous run
inside `haystack`. -/
def containsRun (needle : List Char) : List Char → Bool
  | [] => startsRun needle []
  | b :: bs => startsRun needle (b :: bs) || containsRun needle bs

/-- One optional hop label derives from another: both are `None`, or both
are strings and the first occurs inside the second. -/
def derivesFrom : Option String → Option String → Bool
  | none, none => true
  | some l, some s => containsRun l.toList s.toList
  | _, _ => false

/-- The spec invariant for a data-flow edge: non-empty path whose last
element derives from the sink. -/
def goodEdge (e : DataFlow) : Bool :=
  match e.path.getLast? with
  | none => false
  | some l => derivesFrom l e.sink

/-- Variant with the edge's source in place of its sink: non-empty path
whose last element derives from the source. -/
def goodSourceEdge (e : DataFlow) : Bool :=
  match e.path.getLast? with
  | none => false
  | some l => derivesFrom l e.source

/-- All recorded Flask edges satisfy the path/sink invariant. -/
def GoodFlows (st : AnalyzerState) : Prop :=
  ∀ e ∈ st.data_flows, goodEdge e = true

/-- All recorded Express edges satisfy the invariant with either the sink
or the source. -/
def GoodOrSourceFlows (st : ExpressState) : Prop :=
  ∀ e ∈ st.data_flows, goodEdge e = true ∨ goodSourceEdge e = true

namespace FlaskAnalyzer

mutual

/-- Whether an expression contains an attribute access on the name
`request` whose dotted path is a cataloged source pattern (the condition
under which `visit_Attribute` writes `variable_sources`). -/
def hasRequestSource : Expr → Bool
  | .name _ => false
  | .strLit _ => false
  | .constNone => false
  | .attribute v a =>
    (match v with
     | .name vid => decide (vid = "request") && SOURCE_PATTERNS.contains ("request." ++ a)
     | _ => false) || hasRequestSource v
  | .subscript v i => hasRequestSource v || hasRequestSource i
  | .call f args => hasRequestSource f || hasRequestSourceList args

/-- Disjunction of `hasRequestSource` over an expression list. -/
def hasRequestSourceList : ExprList → Bool
  | .nil => false
  | .cons e t => hasRequestSource e || hasRequestSourceList t
end

end FlaskAnalyzer

/-! ### Concrete inputs used by the claim theorems -/

/-- The spec's Example 1 signal combination: `inputValidation=true,
sanitizerCalls=true`, the other booleans false, 3 of 5 similar patterns
safe, `sanitizerEffectiveness=0.5`. -/
def example1 : ScratchFinding :=
  { ast_patterns :=
      { input_validation := true
        sanitizer_calls := true
        framework_protection := false
        direct_use := false
        missing_validation := false
        weak_sanitization := false }
    similar_is_safe := [true, true, true, false, false]
    sanitizer_effectiveness := 1/2 }

/-- A finding with no similar patterns and every other signal absent. -/
def empty_similar_finding : ScratchFinding :=
  { ast_patterns :=
      { input_validation := false
        sanitizer_calls := false
        framework_protection := false
        direct_use := false
        missing_validation := false
        weak_sanitization := false }
    similar_is_safe := []
    sanitizer_effectiveness := 0 }

/-- A triage analysis whose only positive signal is a sanitizer call:
no data-flow facts, no validation, no similar patterns. -/
def c3_input : TriageAnalysis :=
  { reaches_sink := false
    has_sanitization := false
    has_validation := false
    has_sanitizer_call := true
    has_framework_protection := false
    effectiveness := 0
    similar_is_safe := [] }

/-- Body of the spec's Example 2 handler: `file = request.files['f']`
then `return send_file(file)`. -/
def upload_body : StmtList :=
  .cons (.assign (.cons (.name "file") .nil)
          (.subscript (.attribute (.name "request") "files") (.strLit "f")))
    (.cons (.ret (some (.call (.name "send_file") (.cons (.name "file") .nil)))) .nil)

/-- The Example 2 handler's decorator list: `@app.route('/f')`. -/
def upload_decorators : ExprList :=
  .cons (.call (.attribute (.name "app") "route") (.cons (.strLit "/f") .nil)) .nil

/-- The spec's Example 2 source file: a module whose single statement is
the decorated `upload` handler. -/
def example2_module : StmtList :=
  .cons (.functionDef "upload" upload_body upload_decorators) .nil

/-- A module with one top-level function `f` decorated `@app.patch('/x')`. -/
def patch_module : StmtList :=
  .cons (.functionDef "f" .nil
          (.cons (.call (.attribute (.name "app") "patch") (.cons (.strLit "/x") .nil)) .nil))
    .nil

/-- A module with a nested function whose body performs one assignment:
`def outer(): def inner(): x = "1"`. -/
def nested_assign_module : StmtList :=
  .cons (.functionDef "outer"
          (.cons (.functionDef "inner"
                   (.cons (.assign (.cons (.name "x") .nil) (.strLit "1")) .nil)
                   .nil)
            .nil)
          .nil)
    .nil

/-- A module-top-level call expression `request.get_json()`. -/
def top_level_get_json : Expr :=
  .call (.attribute (.name "request") "get_json") .nil

/-- The Express analyzer run on a file whose content matches one route
`app.get('/x', ...)` and one source access `req.body`. -/
def c7_express_out : ExpressState :=
  ExpressAnalyzer.analyze_express_patterns [⟨"get", "/x"⟩] [] ["body"] []
    ExpressAnalyzer.initial_state

/-- A middleware edge as the Express analyzer produces for the matched
middleware argument text `helmet()`. -/
def c7_middleware_edge : DataFlow :=
  { source := some "request::helmet()"
    sink := some "response::helmet()"
    path := [some "express", some "middleware", some "helmet()"]
    variables_involved := ["req", "res", "next"] }

/-- The source-access edge produced in `c7_express_out`. -/
def c7_bad_edge : DataFlow :=
  { source := some "request.body"
    sink := some "GET /x"
    path := [some "express", some "request", some "body"]
    variables_involved := ["req.body"] }

/-! ### Lemmas about the derives-from relation -/

theorem startsRun_append (n t : List Char) : startsRun n (n ++ t) = true := by
  induction n with
  | nil => rfl
  | cons a as ih => simp [startsRun, ih]

theorem containsRun_of_startsRun (n h : List Char) (hs : startsRun n h = true) :
    containsRun n h = true := by
  cases h with
  | nil => simpa [containsRun] using hs
  | cons b bs => simp [containsRun, hs]

theorem containsRun_append_left (n t : List Char) : containsRun n (n ++ t) = true :=
  containsRun_of_startsRun _ _ (startsRun_append n t)

theorem containsRun_self (n : List Char) : containsRun n n = true := by
  simpa using containsRun_append_left n []

theorem containsRun_append_right (n p h : List Char) (hc : containsRun n h = true) :
    containsRun n (p ++ h) = true := by
  induction p with
  | nil => simpa using hc
  | cons b bs ih => simp [containsRun, ih]

theorem strToList_append (a b : String) : (a ++ b).toList = a.toList ++ b.toList := by
  simp [String.toList, String.data_append]

theorem derivesFrom_refl (x : Option String) : derivesFrom x x = true := by
  cases x with
  | none => rfl
  | some s => simpa [derivesFrom] using containsRun_self s.toList

theorem derivesFrom_append_left (fn t : String) :
    derivesFrom (some fn) (some (fn ++ t)) = true := by
  simpa [derivesFrom, strToList_append] using containsRun_append_left fn.toList t.toList

theorem derivesFrom_append_right (p fn : String) :
    derivesFrom (some fn) (some (p ++ fn)) = true := by
  simpa [derivesFrom, strToList_append] using
    containsRun_append_right fn.toList p.toList fn.toList (containsRun_self fn.toList)

theorem derivesFrom_append_mid (fn m t : String) :
    derivesFrom (some fn) (some (fn ++ m ++ t)) = true := by
  have h : fn ++ m ++ t = fn ++ (m ++ t) := by
    apply String.ext
    simp [String.data_append, List.append_assoc]
  rw [h]
  exact derivesFrom_append_left fn (m ++ t)

/-! ### Edge-shape facts -/

theorem goodEdge_route (cf : Option String) :
    goodEdge (FlaskAnalyzer.route_edge cf) = true := by
  show derivesFrom cf cf = true
  exact derivesFrom_refl cf

theorem goodEdge_processor (fn : String) :
    goodEdge (FlaskAnalyzer.processor_edge fn) = true := by
  show derivesFrom (some fn) (some ("response::" ++ fn)) = true
  exact derivesFrom_append_right "response::" fn

theorem goodFlows_append_one {l : List DataFlow} {e : DataFlow}
    (hl : ∀ x ∈ l, goodEdge x = true) (he : goodEdge e = true) :
    ∀ x ∈ l ++ [e], goodEdge x = true := by
  intro x hx
  rcases List.mem_append.1 hx with h | h
  · exact hl x h
  · rw [List.mem_singleton.1 h]; exact he

theorem goodFlows_of_eq {s t : AnalyzerState} (h : t.data_flows = s.data_flows)
    (hs : GoodFlows s) : GoodFlows t := by
  intro e he
  exact hs e (h ▸ he)

/-! ### Preservation lemmas for the Flask analyzer's helpers -/

namespace FlaskAnalyzer

theorem attribute_update_cf (st : AnalyzerState) (v : Expr) (a : String) :
    (attribute_update st v a).current_function = st.current_function := by
  unfold attribute_update
  repeat' first | rfl | split

theorem attribute_update_flows (st : AnalyzerState) (v : Expr) (a : String) :
    (attribute_update st v a).data_flows = st.data_flows := by
  unfold attribute_update
  repeat' first | rfl | split

theorem call_update_cf (st : AnalyzerState) (f : Expr) :
    (call_update st f).current_function = st.current_function := by
  unfold call_update
  dsimp only
  repeat' first | rfl | split

theorem call_update_none (st : AnalyzerState) (f : Expr)
    (h : st.current_function = none) : call_update st f = st := by
  unfold call_update
  rw [h]
  dsimp only
  repeat' first | rfl | split

theorem call_update_goodFlows (st : AnalyzerState) (f : Expr) (h : GoodFlows st) :
    GoodFlows (call_update st f) := by
  unfold call_update
  dsimp only
  repeat' split
  all_goals
    first
    | exact h
    | (intro e he
       refine goodFlows_append_one h ?_ e he
       simp only [goodEdge, List.getLast?]
       first
       | exact derivesFrom_refl _
       | exact derivesFrom_append_mid _ "::" _)

theorem assign_target_update_cf (v : Expr) (st : AnalyzerState) (t : Expr) :
    (assign_target_update v st t).current_function = st.current_function := by
  unfold assign_target_update
  dsimp only
  repeat' first | rfl | split

theorem assign_target_update_flows (v : Expr) (st : AnalyzerState) (t : Expr) :
    (assign_target_update v st t).data_flows = st.data_flows := by
  unfold assign_target_update
  dsimp only
  repeat' first | rfl | split

theorem foldExprs_cf (f : AnalyzerState → Expr → AnalyzerState)
    (hf : ∀ st e, (f st e).current_function = st.current_function) :
    ∀ (l : ExprList) (st : AnalyzerState),
      (foldExprs f st l).current_function = st.current_function
  | .nil, st => rfl
  | .cons e t, st => by
    rw [show foldExprs f st (.cons e t) = foldExprs f (f st e) t from rfl]
    rw [foldExprs_cf f hf t (f st e), hf st e]

theorem foldExprs_flows (f : AnalyzerState → Expr → AnalyzerState)
    (hf : ∀ st e, (f st e).data_flows = st.data_flows) :
    ∀ (l : ExprList) (st : AnalyzerState),
      (foldExprs f st l).data_flows = st.data_flows
  | .nil, st => rfl
  | .cons e t, st => by
    rw [show foldExprs f st (.cons e t) = foldExprs f (f st e) t from rfl]
    rw [foldExprs_flows f hf t (f st e), hf st e]

theorem handle_route_cf (st : AnalyzerState) :
    (handle_route_decorator st).current_function = st.current_function := rfl

theorem handle_route_goodFlows (st : AnalyzerState) (h : GoodFlows st) :
    GoodFlows (handle_route_decorator st) := by
  intro e he
  exact goodFlows_append_one h (goodEdge_route st.current_function) e he

theorem fold_route_cf :
    ∀ (l : ExprList) (st : AnalyzerState),
      (fold_route_decorators st l).current_function = st.current_function
  | .nil, st => rfl
  | .cons d t, st => by
    rw [show fold_route_decorators st (.cons d t) =
          fold_route_decorators (if isRouteDecorator d then handle_route_decorator st else st) t
        from rfl]
    rw [fold_route_cf t _]
    split <;> rfl

theorem fold_route_goodFlows :
    ∀ (l : ExprList) (st : AnalyzerState), GoodFlows st →
      GoodFlows (fold_route_decorators st l)
  | .nil, _, h => h
  | .cons d t, st, h => by
    rw [show fold_route_decorators st (.cons d t) =
          fold_route_decorators (if isRouteDecorator d then handle_route_decorator st else st) t
        from rfl]
    refine fold_route_goodFlows t _ ?_
    split
    · exact handle_route_goodFlows st h
    · exact h

theorem processor_cf (st : AnalyzerState) :
    (processor_step st).current_function = st.current_function := by
  unfold processor_step
  split <;> try rfl
  split <;> rfl

theorem processor_goodFlows (st : AnalyzerState) (h : GoodFlows st) :
    GoodFlows (processor_step st) := by
  unfold processor_step
  split <;> try exact h
  split
  · intro e he
    refine goodFlows_append_one h ?_ e he
    exact goodEdge_processor _
  · exact h

/-! ### Visitors leave `current_function` as they found it -/

mutual

theorem visitExpr_cf : ∀ (e : Expr) (st : AnalyzerState),
    (visitExpr st e).current_function = st.current_function
  | .name _, _ => rfl
  | .strLit _, _ => rfl
  | .constNone, _ => rfl
  | .attribute v a, st => by
    rw [show visitExpr st (.attribute v a) = visitExpr (attribute_update st v a) v from rfl]
    rw [visitExpr_cf v _, attribute_update_cf]
  | .subscript v i, st => by
    rw [show visitExpr st (.subscript v i) = visitExpr (visitExpr st v) i from rfl]
    rw [visitExpr_cf i _, visitExpr_cf v _]
  | .call f args, st => by
    rw [show visitExpr st (.call f args) =
          visitExprs (visitExpr (call_update st f) f) args from rfl]
    rw [visitExprs_cf args _, visitExpr_cf f _, call_update_cf]

theorem visitExprs_cf : ∀ (l : ExprList) (st : AnalyzerState),
    (visitExprs st l).current_function = st.current_function
  | .nil, _ => rfl
  | .cons e t, st => by
    rw [show visitExprs st (.cons e t) = visitExprs (visitExpr st e) t from rfl]
    rw [visitExprs_cf t _, visitExpr_cf e _]

end

mutual

theorem visitStmt_cf : ∀ (s : Stmt) (st : AnalyzerState),
    (visitStmt st s).current_function = st.current_function
  | .functionDef name body decs, st => by
    rw [show visitStmt st (.functionDef name body decs) =
          processor_step (fold_route_decorators
            { visitExprs (visitStmts { st with current_function := some name } body) decs with
              current_function := st.current_function } decs) from rfl]
    rw [processor_cf, fold_route_cf]
  | .assign targets v, st => by
    rw [show visitStmt st (.assign targets v) =
          visitExpr (visitExprs (foldExprs (assign_target_update v) st targets) targets) v
        from rfl]
    rw [visitExpr_cf, visitExprs_cf,
      foldExprs_cf (assign_target_update v) (assign_target_update_cf v) targets st]
  | .ret none, _ => rfl
  | .ret (some e), st => visitExpr_cf e st
  | .exprStmt e, st => visitExpr_cf e st

theorem visitStmts_cf : ∀ (l : StmtList) (st : AnalyzerState),
    (visitStmts st l).current_function = st.current_function
  | .nil, _ => rfl
  | .cons s t, st => by
    rw [show visitStmts st (.cons s t) = visitStmts (visitStmt st s) t from rfl]
    rw [visitStmts_cf t _, visitStmt_cf s _]

end

/-! ### Visitors preserve the path/sink invariant -/

mutual

theorem visitExpr_goodFlows : ∀ (e : Expr) (st : AnalyzerState),
    GoodFlows st → GoodFlows (visitExpr st e)
  | .name _, _, h => h
  | .strLit _, _, h => h
  | .constNone, _, h => h
  | .attribute v a, st, h =>
    visitExpr_goodFlows v _ (goodFlows_of_eq (attribute_update_flows st v a) h)
  | .subscript v i, st, h =>
    visitExpr_goodFlows i _ (visitExpr_goodFlows v st h)
  | .call f args, st, h =>
    visitExprs_goodFlows args _ (visitExpr_goodFlows f _ (call_update_goodFlows st f h))

theorem visitExprs_goodFlows : ∀ (l : ExprList) (st : AnalyzerState),
    GoodFlows st → GoodFlows (visitExprs st l)
  | .nil, _, h => h
  | .cons e t, st, h => visitExprs_goodFlows t _ (visitExpr_goodFlows e st h)

end

mutual

theorem visitStmt_goodFlows : ∀ (s : Stmt) (st : AnalyzerState),
    GoodFlows st → GoodFlows (visitStmt st s)
  | .functionDef _ body decs, _, h =>
    processor_goodFlows _ (fold_route_goodFlows decs _
      (goodFlows_of_eq rfl
        (visitExprs_goodFlows decs _
          (visitStmts_goodFlows body _ (goodFlows_of_eq rfl h)))))
  | .assign targets v, st, h =>
    visitExpr_goodFlows v _ (visitExprs_goodFlows targets _
      (goodFlows_of_eq
        (foldExprs_flows (assign_target_update v) (assign_target_update_flows v) targets st) h))
  | .ret none, _, h => h
  | .ret (some e), st, h => visitExpr_goodFlows e st h
  | .exprStmt e, st, h => visitExpr_goodFlows e st h

theorem visitStmts_goodFlows : ∀ (l : StmtList) (st : AnalyzerState),
    GoodFlows st → GoodFlows (visitStmts st l)
  | .nil, _, h => h
  | .cons s t, st, h => visitStmts_goodFlows t _ (visitStmt_goodFlows s st h)

end

theorem analyze_goodFlows (m : StmtList) (st : AnalyzerState) (h : GoodFlows st) :
    GoodFlows (analyze st m) :=
  visitStmts_goodFlows m st h

theorem analyze_files_goodFlows :
    ∀ (files : List StmtList) (st : AnalyzerState), GoodFlows st →
      GoodFlows (analyze_files st files)
  | [], _, h => h
  | m :: rest, st, h =>
    analyze_files_goodFlows rest (analyze st m) (analyze_goodFlows m st h)

/-! ### Frame lemmas for module-top-level expressions -/

theorem attribute_update_id (st : AnalyzerState) (v : Expr) (a : String)
    (hg : (match v with
           | Expr.name vid =>
             decide (vid = "request") && SOURCE_PATTERNS.contains ("request." ++ a)
           | _ => false) = false) :
    attribute_update st v a = st := by
  cases v <;> try rfl
  case name vid =>
    unfold attribute_update
    dsimp only
    rw [if_neg]
    intro hc
    have hmem : "request." ++ a ∈ SOURCE_PATTERNS := by
      have h2 := hc.2
      simpa using h2
    rw [hc.1] at hg
    simp [hmem] at hg

mutual

theorem visitExpr_flows_none : ∀ (e : Expr) (st : AnalyzerState),
    st.current_function = none → (visitExpr st e).data_flows = st.data_flows
  | .name _, _, _ => rfl
  | .strLit _, _, _ => rfl
  | .constNone, _, _ => rfl
  | .attribute v a, st, h => by
    rw [show visitExpr st (.attribute v a) = visitExpr (attribute_update st v a) v from rfl]
    rw [visitExpr_flows_none v _ (by rw [attribute_update_cf]; exact h), attribute_update_flows]
  | .subscript v i, st, h => by
    rw [show visitExpr st (.subscript v i) = visitExpr (visitExpr st v) i from rfl]
    rw [visitExpr_flows_none i _ (by rw [visitExpr_cf]; exact h), visitExpr_flows_none v _ h]
  | .call f args, st, h => by
    rw [show visitExpr st (.call f args) =
          visitExprs (visitExpr (call_update st f) f) args from rfl]
    rw [call_update_none st f h]
    rw [visitExprs_flows_none args _ (by rw [visitExpr_cf]; exact h),
      visitExpr_flows_none f _ h]

theorem visitExprs_flows_none : ∀ (l : ExprList) (st : AnalyzerState),
    st.current_function = none → (visitExprs st l).data_flows = st.data_flows
  | .nil, _, _ => rfl
  | .cons e t, st, h => by
    rw [show visitExprs st (.cons e t) = visitExprs (visitExpr st e) t from rfl]
    rw [visitExprs_flows_none t _ (by rw [visitExpr_cf]; exact h),
      visitExpr_flows_none e _ h]

end

mutual

theorem visitExpr_vs_none : ∀ (e : Expr) (st : AnalyzerState),
    st.current_function = none → hasRequestSource e = false →
    (visitExpr st e).variable_sources = st.variable_sources
  | .name _, _, _, _ => rfl
  | .strLit _, _, _, _ => rfl
  | .constNone, _, _, _ => rfl
  | .attribute v a, st, h, hr => by
    rw [show visitExpr st (.attribute v a) = visitExpr (attribute_update st v a) v from rfl]
    have hr2 := hr
    unfold hasRequestSource at hr2
    rw [Bool.or_eq_false_iff] at hr2
    rw [attribute_update_id st v a hr2.1]
    exact visitExpr_vs_none v st h hr2.2
  | .subscript v i, st, h, hr => by
    rw [show visitExpr st (.subscript v i) = visitExpr (visitExpr st v) i from rfl]
    have hr2 := hr
    unfold hasRequestSource at hr2
    rw [Bool.or_eq_false_iff] at hr2
    rw [visitExpr_vs_none i _ (by rw [visitExpr_cf]; exact h) hr2.2,
      visitExpr_vs_none v st h hr2.1]
  | .call f args, st, h, hr => by
    rw [show visitExpr st (.call f args) =
          visitExprs (visitExpr (call_update st f) f) args from rfl]
    have hr2 := hr
    unfold hasRequestSource at hr2
    rw [Bool.or_eq_false_iff] at hr2
    rw [call_update_none st f h]
    rw [visitExprs_vs_none args _ (by rw [visitExpr_cf]; exact h) hr2.2,
      visitExpr_vs_none f st h hr2.1]

theorem visitExprs_vs_none : ∀ (l : ExprList) (st : AnalyzerState),
    st.current_function = none → hasRequestSourceList l = false →
    (visitExprs st l).variable_sources = st.variable_sources
  | .nil, _, _, _ => rfl
  | .cons e t, st, h, hr => by
    rw [show visitExprs st (.cons e t) = visitExprs (visitExpr st e) t from rfl]
    have hr2 := hr
    unfold hasRequestSourceList at hr2
    rw [Bool.or_eq_false_iff] at hr2
    rw [visitExprs_vs_none t _ (by rw [visitExpr_cf]; exact h) hr2.2,
      visitExpr_vs_none e st h hr2.1]

end

/-! ### Membership lemmas for the route-decorator loop -/

theorem setAdd_mem_self (l : List String) (x : String) : x ∈ setAdd l x := by
  unfold setAdd
  split
  · assumption
  · simp

theorem setAdd_mem_mono (l : List String) (x y : String) (h : x ∈ l) : x ∈ setAdd l y := by
  unfold setAdd
  split
  · exact h
  · exact List.mem_append.2 (Or.inl h)

theorem fold_route_entry_mono : ∀ (l : ExprList) (st : AnalyzerState) (x : String),
    x ∈ st.entry_points → x ∈ (fold_route_decorators st l).entry_points
  | .nil, _, _, h => h
  | .cons d t, st, x, h => by
    rw [show fold_route_decorators st (.cons d t) =
          fold_route_decorators (if isRouteDecorator d then handle_route_decorator st else st) t
        from rfl]
    refine fold_route_entry_mono t _ x ?_
    split
    · exact setAdd_mem_mono _ x _ h
    · exact h

theorem fold_route_flows_mono : ∀ (l : ExprList) (st : AnalyzerState) (e : DataFlow),
    e ∈ st.data_flows → e ∈ (fold_route_decorators st l).data_flows
  | .nil, _, _, h => h
  | .cons d t, st, e, h => by
    rw [show fold_route_decorators st (.cons d t) =
          fold_route_decorators (if isRouteDecorator d then handle_route_decorator st else st) t
        from rfl]
    refine fold_route_flows_mono t _ e ?_
    split
    · exact List.mem_append.2 (Or.inl h)
    · exact h

theorem fold_route_mem : ∀ (l : ExprList) (st : AnalyzerState) (d : Expr),
    d ∈ l.toList → isRouteDecorator d = true →
    (pyStr st.current_function ++ " (HTTP endpoint)") ∈ (fold_route_decorators st l).entry_points ∧
      route_edge st.current_function ∈ (fold_route_decorators st l).data_flows
  | .nil, _, _, hd, _ => absurd hd (List.not_mem_nil _)
  | .cons e t, st, d, hd, hr => by
    rw [show fold_route_decorators st (.cons e t) =
          fold_route_decorators (if isRouteDecorator e then handle_route_decorator st else st) t
        from rfl]
    rcases List.mem_cons.1 hd with heq | ht
    · subst heq
      rw [if_pos hr]
      constructor
      · exact fold_route_entry_mono t _ _ (setAdd_mem_self _ _)
      · exact fold_route_flows_mono t _ _ (List.mem_append.2 (Or.inr (List.mem_singleton.2 rfl)))
    · have hcf : (if isRouteDecorator e then handle_route_decorator st else st).current_function
          = st.current_function := by split <;> rfl
      have := fold_route_mem t (if isRouteDecorator e then handle_route_decorator st else st) d ht hr
      rw [hcf] at this
      exact this

theorem processor_entry (st : AnalyzerState) :
    (processor_step st).entry_points = st.entry_points := by
  unfold processor_step
  repeat' first | rfl | split

theorem processor_flows_mono (st : AnalyzerState) (e : DataFlow)
    (h : e ∈ st.data_flows) : e ∈ (processor_step st).data_flows := by
  unfold processor_step
  split <;> try exact h
  split
  · exact List.mem_append.2 (Or.inl h)
  · exact h

end FlaskAnalyzer

/-! ### Express preservation -/

theorem foldl_preserves {α σ : Type} (P : σ → Prop) (g : σ → α → σ)
    (hg : ∀ s a, P s → P (g s a)) :
    ∀ (l : List α) (s : σ), P s → P (List.foldl g s l)
  | [], _, h => h
  | a :: t, s, h => foldl_preserves P g hg t (g s a) (hg s a h)

theorem goodOr_append_one {l : List DataFlow} {e : DataFlow}
    (hl : ∀ x ∈ l, goodEdge x = true ∨ goodSourceEdge x = true)
    (he : goodEdge e = true ∨ goodSourceEdge e = true) :
    ∀ x ∈ l ++ [e], goodEdge x = true ∨ goodSourceEdge x = true := by
  intro x hx
  rcases List.mem_append.1 hx with h | h
  · exact hl x h
  · rw [List.mem_singleton.1 h]; exact he

theorem express_goodOr (routes : List RouteMatch) (middleware : List String)
    (source_matches sink_matches : List String) (st : ExpressState)
    (h : GoodOrSourceFlows st) :
    GoodOrSourceFlows
      (ExpressAnalyzer.analyze_express_patterns routes middleware source_matches
        sink_matches st) := by
  unfold ExpressAnalyzer.analyze_express_patterns
  dsimp only
  have hbase : GoodOrSourceFlows
      (List.foldl (fun st mw =>
        if mw ≠ "" then
          { st with data_flows := st.data_flows ++
              [{ source := some ("request::" ++ mw)
                 sink := some ("response::" ++ mw)
                 path := [some "express", some "middleware", some mw]
                 variables_involved := ["req", "res", "next"] }] }
        else st)
        (List.foldl (fun st m =>
          let route_name := pyUpper m.method ++ " " ++ m.path
          { entry_points := setAdd st.entry_points (route_name ++ " (HTTP endpoint)")
            data_flows := st.data_flows ++
              [{ source := some ("HTTP::" ++ route_name)
                 sink := some route_name
                 path := [some "express", some "router", some route_name]
                 variables_involved := ["req", "res"] }]
            current_route := some route_name }) st routes)
        middleware) := by
    refine foldl_preserves GoodOrSourceFlows _ ?_ middleware _
      (foldl_preserves GoodOrSourceFlows _ ?_ routes st h)
    · intro s mw hs
      dsimp only
      split
      · intro e he
        refine goodOr_append_one hs ?_ e he
        left
        simp only [goodEdge, List.getLast?]
        exact derivesFrom_append_right "response::" mw
      · exact hs
    · intro s m hs
      intro e he
      refine goodOr_append_one hs ?_ e he
      left
      simp only [goodEdge, List.getLast?]
      exact derivesFrom_refl _
  split
  · refine foldl_preserves GoodOrSourceFlows _ ?_ sink_matches _
      (foldl_preserves GoodOrSourceFlows _ ?_ source_matches _ hbase)
    · intro s t hs
      intro e he
      refine goodOr_append_one hs ?_ e he
      left
      simp only [goodEdge, List.getLast?]
      exact derivesFrom_append_right "response." t
    · intro s t hs
      intro e he
      refine goodOr_append_one hs ?_ e he
      right
      simp only [goodSourceEdge, List.getLast?]
      exact derivesFrom_append_right "request." t
  · exact hbase

/-! ## Claim theorems -/

/-- C1: for every finding with at least one similar pattern, the
StaticPatternPolicy score equals the clamped weighted-sum formula; on the
Example 1 signal combination the score is exactly 0.67 and its
interpretation is "needs manual review". -/
theorem C1_staticPatternPolicy_score :
    (∀ f : ScratchFinding, f.similar_is_safe ≠ [] →
        CodeQLTriageAgent.calculate_confidence_score f = some (staticPatternPolicySpec f)) ∧
    CodeQLTriageAgent.calculate_confidence_score example1 = some (67/100) ∧
    CodeQLTriageAgent.interpretation (67/100) = "Needs manual review" := by
  refine ⟨?_, ?_, ?_⟩
  case refine_2 =>
    norm_num [CodeQLTriageAgent.calculate_confidence_score, example1, min_def, max_def]
  case refine_3 =>
    norm_num [CodeQLTriageAgent.interpretation]
  intro f hne
  unfold CodeQLTriageAgent.calculate_confidence_score staticPatternPolicySpec
  rw [if_neg (by simpa using hne)]
  dsimp only
  congr 1
  split_ifs <;> ring_nf

/-- Witness for C1 at the Example 1 input. -/
theorem C1_staticPatternPolicy_score_witness :
    example1.similar_is_safe ≠ [] ∧
    CodeQLTriageAgent.calculate_confidence_score example1 = some (staticPatternPolicySpec example1) :=
  ⟨by decide, C1_staticPatternPolicy_score.1 example1 (by decide)⟩

/-- C2: contrary to the claim, the StaticPatternPolicy scorer is not
total: on a finding whose similar-pattern list is empty the division
`safe_patterns / len(...)` raises `ZeroDivisionError` (modelled as
`none`) instead of contributing 0. -/
theorem C2_empty_similar_fails :
    CodeQLTriageAgent.calculate_confidence_score empty_similar_finding = none := rfl

/-- C3 counterexample: the claimed DataFlowAwarePolicy formula gives 0.2
for a context whose only positive signal is a sanitizer call, but the
code ignores the sanitizer-call and framework-protection signals and
returns 0. -/
theorem C3_counterexample_sanitizer_call :
    TriageAgent.calculate_confidence_score c3_input ≠ dataFlowAwarePolicySpec c3_input := by
  norm_num [TriageAgent.calculate_confidence_score, dataFlowAwarePolicySpec, c3_input,
    min_def, max_def]

/-- C3 (amended): the DataFlowAwarePolicy score equals the clamp to [0,1]
of 0.4 if the tainted value reaches a sink, minus 0.3 if sanitization is
present, plus 0.2 if validation is present, minus 0.2 if the sanitizer
effectiveness exceeds 0.7, plus 0.2·(safeSimilar/totalSimilar, 0 if
totalSimilar = 0); there are no sanitizer-call or framework-protection
terms. -/
theorem C3_dataFlowAware_score (a : TriageAnalysis) :
    TriageAgent.calculate_confidence_score a =
      max 0 (min 1
        ((if a.reaches_sink then 0.4 else 0)
          - (if a.has_sanitization then 0.3 else 0)
          + (if a.has_validation then 0.2 else 0)
          - (if a.effectiveness > 0.7 then 0.2 else 0)
          + (if a.similar_is_safe ≠ [] then
               ((a.similar_is_safe.filter (fun b => b)).length : ℚ)
                 / (a.similar_is_safe.length : ℚ) * 0.2
             else 0))) := by
  unfold TriageAgent.calculate_confidence_score
  dsimp only
  congr 2
  split_ifs <;> ring_nf

/-! Evaluation of `adjust_severity` at the four canonical severities. -/

theorem adjust_low_eq (c : ℚ) :
    SecurityAnalysisWorkflow.adjust_severity "low" c
      = some (if c > 0.8 then "medium" else "low") := by
  have hidx : SecurityAnalysisWorkflow.severity_levels.findIdx?
      (fun s => s = SecurityAnalysisWorkflow.pyLower "low") = some 0 := by decide
  unfold SecurityAnalysisWorkflow.adjust_severity
  rw [hidx]
  norm_num [SecurityAnalysisWorkflow.severity_levels, List.get?]
  split_ifs <;> rfl

theorem adjust_medium_eq (c : ℚ) :
    SecurityAnalysisWorkflow.adjust_severity "medium" c
      = some (if c < 0.3 then "low" else if c > 0.8 then "high" else "medium") := by
  have hidx : SecurityAnalysisWorkflow.severity_levels.findIdx?
      (fun s => s = SecurityAnalysisWorkflow.pyLower "medium") = some 1 := by decide
  unfold SecurityAnalysisWorkflow.adjust_severity
  rw [hidx]
  norm_num [SecurityAnalysisWorkflow.severity_levels, List.get?]
  split_ifs <;> rfl

theorem adjust_high_eq (c : ℚ) :
    SecurityAnalysisWorkflow.adjust_severity "high" c
      = some (if c < 0.3 then "medium" else if c > 0.8 then "critical" else "high") := by
  have hidx : SecurityAnalysisWorkflow.severity_levels.findIdx?
      (fun s => s = SecurityAnalysisWorkflow.pyLower "high") = some 2 := by decide
  unfold SecurityAnalysisWorkflow.adjust_severity
  rw [hidx]
  norm_num [SecurityAnalysisWorkflow.severity_levels, List.get?]
  split_ifs <;> rfl

theorem adjust_critical_eq (c : ℚ) :
    SecurityAnalysisWorkflow.adjust_severity "critical" c
      = some (if c < 0.3 then "high" else "critical") := by
  have hidx : SecurityAnalysisWorkflow.severity_levels.findIdx?
      (fun s => s = SecurityAnalysisWorkflow.pyLower "critical") = some 3 := by decide
  unfold SecurityAnalysisWorkflow.adjust_severity
  rw [hidx]
  norm_num [SecurityAnalysisWorkflow.severity_levels, List.get?]
  split_ifs <;> rfl

/-- C4: over the ordered severities low < medium < high < critical,
`_adjust_severity` demotes one level when the score is below 0.3 and the
base is not low, promotes one level when the score is above 0.8 and the
base is not critical, and otherwise returns the base unchanged. -/
theorem C4_severity_adjustment (c : ℚ) :
    SecurityAnalysisWorkflow.adjust_severity "low" c
        = some (if c > 0.8 then "medium" else "low") ∧
    SecurityAnalysisWorkflow.adjust_severity "medium" c
        = some (if c < 0.3 then "low" else if c > 0.8 then "high" else "medium") ∧
    SecurityAnalysisWorkflow.adjust_severity "high" c
        = some (if c < 0.3 then "medium" else if c > 0.8 then "critical" else "high") ∧
    SecurityAnalysisWorkflow.adjust_severity "critical" c
        = some (if c < 0.3 then "high" else "critical") :=
  ⟨adjust_low_eq c, adjust_medium_eq c, adjust_high_eq c, adjust_critical_eq c⟩

/-- C10: a finding whose identifier is missing from the scored-findings
mapping receives confidence 0.0, and with that confidence every base
severity above low is placed one level lower. -/
theorem C10_missing_finding_demoted (scored : List (Option String × ℚ))
    (fid : Option String) (h : scored.lookup fid = none) :
    SecurityAnalysisWorkflow.assigned_confidence scored fid = 0 ∧
    SecurityAnalysisWorkflow.adjust_severity "medium"
        (SecurityAnalysisWorkflow.assigned_confidence scored fid) = some "low" ∧
    SecurityAnalysisWorkflow.adjust_severity "high"
        (SecurityAnalysisWorkflow.assigned_confidence scored fid) = some "medium" ∧
    SecurityAnalysisWorkflow.adjust_severity "critical"
        (SecurityAnalysisWorkflow.assigned_confidence scored fid) = some "high" := by
  have h0 : SecurityAnalysisWorkflow.assigned_confidence scored fid = 0 := by
    unfold SecurityAnalysisWorkflow.assigned_confidence
    rw [h]
  refine ⟨h0, ?_, ?_, ?_⟩
  · rw [h0, adjust_medium_eq]; norm_num
  · rw [h0, adjust_high_eq]; norm_num
  · rw [h0, adjust_critical_eq]; norm_num

/-- Witness for C10: the empty scored mapping misses the id `CVE-1`. -/
theorem C10_missing_finding_demoted_witness :
    ([] : List (Option String × ℚ)).lookup (some "CVE-1") = none ∧
    (SecurityAnalysisWorkflow.assigned_confidence [] (some "CVE-1") = 0 ∧
     SecurityAnalysisWorkflow.adjust_severity "medium"
         (SecurityAnalysisWorkflow.assigned_confidence [] (some "CVE-1")) = some "low" ∧
     SecurityAnalysisWorkflow.adjust_severity "high"
         (SecurityAnalysisWorkflow.assigned_confidence [] (some "CVE-1")) = some "medium" ∧
     SecurityAnalysisWorkflow.adjust_severity "critical"
         (SecurityAnalysisWorkflow.assigned_confidence [] (some "CVE-1")) = some "high") :=
  ⟨rfl, C10_missing_finding_demoted [] (some "CVE-1") rfl⟩

/-- C5: the actual Flask-analyzer output on the spec's Example 2 file:
because `BaseAnalyzer.visit_FunctionDef` restores `current_function`
before the decorator loop runs, the entry point is labelled
`None (HTTP endpoint)` and the synthetic edge is `HTTP::None -> None`,
not `upload`, and no edge for the bare-name call `send_file(file)` is
produced (the sink branch of `visit_Call` requires an attribute call). -/
theorem C5_example2_actual_output :
    (FlaskAnalyzer.analyze FlaskAnalyzer.initial_state example2_module).entry_points
        = ["None (HTTP endpoint)"] ∧
    (FlaskAnalyzer.analyze FlaskAnalyzer.initial_state example2_module).data_flows
        = [FlaskAnalyzer.route_edge none] ∧
    "upload (HTTP endpoint)"
        ∉ (FlaskAnalyzer.analyze FlaskAnalyzer.initial_state example2_module).entry_points ∧
    (∀ e ∈ (FlaskAnalyzer.analyze FlaskAnalyzer.initial_state example2_module).data_flows,
      e.sink ≠ some "upload::send_file") := by
  decide

/-- C6 counterexample: a top-level function decorated `@app.patch('/x')`
produces no entry point and no data-flow edge (`patch` is not in the
Flask analyzer's verb list), contradicting the claim. -/
theorem C6_counterexample_patch :
    "f (HTTP endpoint)"
        ∉ (FlaskAnalyzer.analyze FlaskAnalyzer.initial_state patch_module).entry_points ∧
    (FlaskAnalyzer.analyze FlaskAnalyzer.initial_state patch_module).data_flows = [] := by
  decide

/-- C6 (amended): for every function definition carrying a decorator
that is a call whose attribute is one of route, get, post, put, delete
(not patch), visiting the definition emits the entry point
`"<scope> (HTTP endpoint)"` and the synthetic edge
`HTTP::<scope> -> <scope>`, where `<scope>` is the analyzer's
`current_function` at the time of the visit — the scope enclosing the
definition (`None` at top level), not the decorated function's own
name. -/
theorem C6_route_decorator_emits (st : AnalyzerState) (name : String)
    (body : StmtList) (decorators : ExprList) (d : Expr)
    (hd : d ∈ decorators.toList) (hr : FlaskAnalyzer.isRouteDecorator d = true) :
    (pyStr st.current_function ++ " (HTTP endpoint)")
        ∈ (FlaskAnalyzer.visitStmt st (.functionDef name body decorators)).entry_points ∧
    FlaskAnalyzer.route_edge st.current_function
        ∈ (FlaskAnalyzer.visitStmt st (.functionDef name body decorators)).data_flows := by
  rw [show FlaskAnalyzer.visitStmt st (.functionDef name body decorators) =
        FlaskAnalyzer.processor_step (FlaskAnalyzer.fold_route_decorators
          { FlaskAnalyzer.visitExprs (FlaskAnalyzer.visitStmts
              { st with current_function := some name } body) decorators with
            current_function := st.current_function } decorators) from rfl]
  have hm := FlaskAnalyzer.fold_route_mem decorators
      { FlaskAnalyzer.visitExprs (FlaskAnalyzer.visitStmts
          { st with current_function := some name } body) decorators with
        current_function := st.current_function } d hd hr
  constructor
  · rw [FlaskAnalyzer.processor_entry]
    exact hm.1
  · exact FlaskAnalyzer.processor_flows_mono _ _ hm.2

/-- Witness for C6 at a top-level decorated function. -/
theorem C6_route_decorator_emits_witness :
    ((Expr.call (.attribute (.name "app") "route") (.cons (.strLit "/f") .nil))
        ∈ upload_decorators.toList) ∧
    ("None (HTTP endpoint)" ∈ (FlaskAnalyzer.visitStmt FlaskAnalyzer.initial_state
        (.functionDef "f" .nil upload_decorators)).entry_points ∧
     FlaskAnalyzer.route_edge none ∈ (FlaskAnalyzer.visitStmt FlaskAnalyzer.initial_state
        (.functionDef "f" .nil upload_decorators)).data_flows) :=
  ⟨List.mem_singleton.2 rfl,
   C6_route_decorator_emits FlaskAnalyzer.initial_state "f" .nil upload_decorators
     (Expr.call (.attribute (.name "app") "route") (.cons (.strLit "/f") .nil))
     (List.mem_singleton.2 rfl) rfl⟩

/-- C7 counterexample: the Express analyzer's source-access edge for
`req.body` under route `GET /x` has path `[express, request, body]` and
sink `GET /x`: its last path element does not derive from the sink. -/
theorem C7_counterexample_express_source_edge :
    c7_bad_edge ∈ c7_express_out.data_flows ∧ goodEdge c7_bad_edge = false := by
  decide

/-- C7 (amended): every edge the Flask analyzer produces has a non-empty
path whose last element derives from the sink; every edge the Express
pattern-text analyzer produces satisfies this with either its sink or —
for the source-access edges — its source. -/
theorem C7_path_sink_invariant :
    (∀ (files : List StmtList),
      ∀ e ∈ (FlaskAnalyzer.analyze_files FlaskAnalyzer.initial_state files).data_flows,
        goodEdge e = true) ∧
    (∀ (routes : List RouteMatch) (middleware source_matches sink_matches : List String)
        (st : ExpressState),
      (∀ e ∈ st.data_flows, goodEdge e = true ∨ goodSourceEdge e = true) →
      ∀ e ∈ (ExpressAnalyzer.analyze_express_patterns routes middleware source_matches
          sink_matches st).data_flows,
        goodEdge e = true ∨ goodSourceEdge e = true) := by
  constructor
  · intro files e he
    refine FlaskAnalyzer.analyze_files_goodFlows files FlaskAnalyzer.initial_state ?_ e he
    intro x hx
    exact absurd hx (List.not_mem_nil x)
  · intro routes mw srcs snks st h
    exact express_goodOr routes mw srcs snks st h

/-- Witness for C7: the invariant evaluated on the Example 2 route edge
and on an Express middleware edge. -/
theorem C7_path_sink_invariant_witness :
    goodEdge (FlaskAnalyzer.route_edge none) = true ∧
    (goodEdge c7_middleware_edge = true ∨ goodSourceEdge c7_middleware_edge = true) :=
  ⟨C7_path_sink_invariant.1 [example2_module] (FlaskAnalyzer.route_edge none) (by decide),
   C7_path_sink_invariant.2 [] ["helmet()"] [] [] ExpressAnalyzer.initial_state
     (fun x hx => absurd hx (List.not_mem_nil x)) c7_middleware_edge (by decide)⟩

/-- C8 counterexample: a single analyzer instance is reused across
files, so the scope-variable map is not empty at the start of the next
file's analysis: after analyzing a file whose nested function assigns
`x`, the variable is still tracked (neither popped at the nested
function's exit nor cleared between files), and analyzing a second file
starts from exactly that state. -/
theorem C8_counterexample_scope_persists :
    (FlaskAnalyzer.analyze_files FlaskAnalyzer.initial_state
        [nested_assign_module]).current_scope_variables.map Prod.fst = ["x"] ∧
    FlaskAnalyzer.analyze_files FlaskAnalyzer.initial_state
        [nested_assign_module, StmtList.nil]
      = FlaskAnalyzer.analyze (FlaskAnalyzer.analyze_files FlaskAnalyzer.initial_state
          [nested_assign_module]) StmtList.nil :=
  ⟨by decide, rfl⟩

/-- C8 (amended): only the `current_function` name obeys the LIFO
save/restore discipline — visiting any statement or expression returns
`current_function` to the value it had before the visit; the
scope-variable and taint-origin maps are never reset per file or popped
per function (see the counterexample). -/
theorem C8_scope_discipline :
    (∀ (s : Stmt) (st : AnalyzerState),
      (FlaskAnalyzer.visitStmt st s).current_function = st.current_function) ∧
    (∀ (l : StmtList) (st : AnalyzerState),
      (FlaskAnalyzer.visitStmts st l).current_function = st.current_function) ∧
    (∀ (e : Expr) (st : AnalyzerState),
      (FlaskAnalyzer.visitExpr st e).current_function = st.current_function) :=
  ⟨FlaskAnalyzer.visitStmt_cf, FlaskAnalyzer.visitStmts_cf, FlaskAnalyzer.visitExpr_cf⟩

/-- C9 counterexample: visiting the module-top-level call
`request.get_json()` (a cataloged source pattern) does change
`variable_sources`: the nested attribute visit records a taint origin
under the `None` current-function key. -/
theorem C9_counterexample_get_json :
    (FlaskAnalyzer.visitExpr FlaskAnalyzer.initial_state top_level_get_json).variable_sources
      ≠ FlaskAnalyzer.initial_state.variable_sources := by
  decide

/-- C9 (amended): a call visited while `current_function` is `None`
produces no data-flow edge (`data_flows` is unchanged), and
`variable_sources` is also unchanged provided no attribute access on the
name `request` matching a source pattern occurs inside the call;
otherwise that attribute visit records a taint origin under the `None`
key. -/
theorem C9_top_level_call_frame :
    (∀ (f : Expr) (args : ExprList) (st : AnalyzerState),
      st.current_function = none →
      (FlaskAnalyzer.visitExpr st (.call f args)).data_flows = st.data_flows) ∧
    (∀ (f : Expr) (args : ExprList) (st : AnalyzerState),
      st.current_function = none →
      FlaskAnalyzer.hasRequestSource (.call f args) = false →
      (FlaskAnalyzer.visitExpr st (.call f args)).variable_sources = st.variable_sources) :=
  ⟨fun f args st h => FlaskAnalyzer.visitExpr_flows_none (.call f args) st h,
   fun f args st h hr => FlaskAnalyzer.visitExpr_vs_none (.call f args) st h hr⟩

/-- Witness for C9 at the top-level sink call `x.jsonify()`. -/
theorem C9_top_level_call_frame_witness :
    FlaskAnalyzer.initial_state.current_function = none ∧
    FlaskAnalyzer.hasRequestSource
        (.call (.attribute (.name "x") "jsonify") .nil) = false ∧
    (FlaskAnalyzer.visitExpr FlaskAnalyzer.initial_state
        (.call (.attribute (.name "x") "jsonify") .nil)).data_flows
      = FlaskAnalyzer.initial_state.data_flows ∧
    (FlaskAnalyzer.visitExpr FlaskAnalyzer.initial_state
        (.call (.attribute (.name "x") "jsonify") .nil)).variable_sources
      = FlaskAnalyzer.initial_state.variable_sources :=
  ⟨rfl, by decide,
   C9_top_level_call_frame.1 (.attribute (.name "x") "jsonify") .nil
     FlaskAnalyzer.initial_state rfl,
   C9_top_level_call_frame.2 (.attribute (.name "x") "jsonify") .nil
     FlaskAnalyzer.initial_state rfl (by decide)⟩

end VulnAgent
